import Mathlib

/-!
# Verification of the OpenRCT2 scripting engine (plugin host)

Shallow embedding of `src/openrct2/scripting/ScriptEngine.cpp`: the plugin
lifecycle manager (load / start / stop / hot-reload) and the REPL bridge.

The engine's own code (`ScriptEngine.cpp`) is translated directly.  The
collaborator classes `Plugin`, `HookEngine` and `ScriptExecutionInfo` are not
part of the excerpt; their behaviour is modelled from the spec where a claim
needs it (each such definition carries a `Modelled from the spec:` comment).

Side effects that the C++ performs through collaborators (console lines,
`plugin->Load()` / `Start()` / `Stop()` invocations, promise fulfilment) are
recorded in an event trace carried in the engine state, so that ordering
claims become statements about the trace.
-/

set_option autoImplicit false

namespace RCT2Script

/-- `static constexpr int32_t OPENRCT2_PLUGIN_API_VERSION = 1;` -/
def OPENRCT2_PLUGIN_API_VERSION : Int := 1

/-- Plugin metadata as registered by a plugin's script during `Plugin::Load`:
display name and the minimum host API version it requires (`int32_t` in C++,
modelled as `Int`). -/
structure PluginMetadata where
  Name : String
  MinApiVersion : Int
deriving Repr, DecidableEq

/-- Modelled from the spec: the observable behaviour of one plugin file on
disk (`Plugin.cpp` is not part of the excerpt).  `Plugin::Load` executes the
script's top-level code: it either throws (`Except.error` with the exception
text) or registers metadata; the loaded code determines whether a subsequent
`Start` or `Stop` call throws (`some` exception text) or succeeds (`none`). -/
structure FileBehavior where
  load : Except String PluginMetadata
  startThrows : Option String
  stopThrows : Option String

/-- A `Plugin` object held by the registry (`_plugins`): source path, the
metadata and code behaviour captured by its last successful `Load`, and the
`HasStarted` lifecycle flag.  `id` stands for C++ object identity of the
`shared_ptr<Plugin>`; each constructed plugin gets a fresh one. -/
structure Plugin where
  id : Nat
  path : String
  metadata : PluginMetadata
  startThrows : Option String
  stopThrows : Option String
  hasStarted : Bool
deriving Repr, DecidableEq

/-- Observable events emitted by the engine, in order. -/
inductive Event where
  /-- `_console.WriteLine(s)` -/
  | consoleLine (s : String)
  /-- `_console.WriteLineError(s)` -/
  | consoleError (s : String)
  /-- `plugin->Load()` invoked on the plugin object `id` bound to `path` -/
  | loadCall (id : Nat) (path : String)
  /-- `plugin->Start()` invoked -/
  | startCall (id : Nat) (path : String)
  /-- `plugin->Stop()` invoked -/
  | stopCall (id : Nat) (path : String)
  /-- one `_pluginStoppedSubscriptions` callback invoked for plugin `id` -/
  | pluginStoppedNotify (id : Nat)
  /-- `_hookEngine.UnsubscribeAll(plugin)` invoked for plugin `id` -/
  | unsubscribeAll (id : Nat)
  /-- a hook callback of plugin `id` invoked by `HookEngine` dispatch -/
  | hookCall (id : Nat)
  /-- `promise.set_value()` on the REPL promise `pid` -/
  | promiseFulfilled (pid : Nat)
  /-- the `dukglue_register_global` block of `Initialise` ran once -/
  | registerGlobals
deriving Repr, DecidableEq

/-- Outcome of `duk_peval_string` on one snippet: error (with
`duk_safe_to_string` of the error), an `undefined` result, or a defined
result whose display string (`Stringify`) is `display`. -/
inductive EvalResult where
  | err (msg : String)
  | undef
  | ok (display : String)
deriving Repr, DecidableEq

/-- The `ScriptEngine` state.  `subscriptions` is the Hook Engine's table,
modelled from the spec as (event name, owning plugin id) entries;
`pluginStoppedObservers` the number of registered `_pluginStoppedSubscriptions`
callbacks; `changedPluginFiles` the hot-reload change set (a set: insertion
dedups); `evalQueue` the REPL FIFO of (promise id, source) pairs. -/
structure EngineState where
  initialised : Bool
  pluginsLoaded : Bool
  pluginsStarted : Bool
  plugins : List Plugin
  nextPluginId : Nat
  subscriptions : List (String × Nat)
  pluginStoppedObservers : Nat
  changedPluginFiles : List String
  evalQueue : List (Nat × String)
  nextPromiseId : Nat
  lastHotReloadCheckTick : Nat
  registerCount : Nat
  trace : List Event
deriving Repr, DecidableEq

/-- The state after `ScriptEngine::ScriptEngine` (all members default). -/
def initState : EngineState :=
  { initialised := false
    pluginsLoaded := false
    pluginsStarted := false
    plugins := []
    nextPluginId := 0
    subscriptions := []
    pluginStoppedObservers := 0
    changedPluginFiles := []
    evalQueue := []
    nextPromiseId := 0
    lastHotReloadCheckTick := 0
    registerCount := 0
    trace := [] }

/-- `ScriptEngine::Initialise` (lines 60-86): registers the capability
globals, then sets `_initialised = true`, `_pluginsLoaded = false`,
`_pluginsStarted = false`.  Note: the function body contains no
already-initialised guard. -/
def initialise (st : EngineState) : EngineState :=
  { st with
    registerCount := st.registerCount + 1
    trace := st.trace ++ [Event.registerGlobals]
    initialised := true
    pluginsLoaded := false
    pluginsStarted := false }

/-- The `if (!_initialised) Initialise();` prologue shared by `LoadPlugins`
and `Update`. -/
def initIfNeeded (st : EngineState) : EngineState :=
  if st.initialised then st else initialise st

/-- `ScriptEngine::ShouldLoadScript`: a path is loaded unless it contains a
`node_modules` directory segment (either slash style). -/
def ShouldLoadScript (path : String) : Bool :=
  (path.splitOn "/node_modules/").length == 1
    && (path.splitOn "\\node_modules\\").length == 1

/-- `LogPluginInfo`: `_console.WriteLine("[" + pluginName + "] " + message)`. -/
def logPluginInfoLine (pluginName message : String) : Event :=
  Event.consoleLine ("[" ++ pluginName ++ "] " ++ message)

/-- `ScriptEngine::LoadPlugin` (lines 117-140): construct a `Plugin` for
`path`, call its `Load` inside an execution scope; on success compare the
registered `MinApiVersion` against `OPENRCT2_PLUGIN_API_VERSION`: accept
(log "Loaded", `push_back`) iff `MinApiVersion <= OPENRCT2_PLUGIN_API_VERSION`,
otherwise log the rejection; an exception from `Load` is caught and written
to the console as an error. -/
def LoadPlugin (disk : String → FileBehavior) (path : String)
    (st : EngineState) : EngineState :=
  let pid := st.nextPluginId
  match (disk path).load with
  | Except.error e =>
      { st with
        nextPluginId := pid + 1
        trace := st.trace ++ [Event.loadCall pid path, Event.consoleError e] }
  | Except.ok md =>
      if md.MinApiVersion ≤ OPENRCT2_PLUGIN_API_VERSION then
        { st with
          nextPluginId := pid + 1
          plugins := st.plugins ++
            [{ id := pid, path := path, metadata := md
               startThrows := (disk path).startThrows
               stopThrows := (disk path).stopThrows
               hasStarted := false }]
          trace := st.trace ++
            [Event.loadCall pid path, logPluginInfoLine md.Name "Loaded"] }
      else
        { st with
          nextPluginId := pid + 1
          trace := st.trace ++
            [Event.loadCall pid path,
             logPluginInfoLine md.Name
               ("Requires newer API version: v" ++ toString md.MinApiVersion)] }

/-- `ScriptEngine::LoadPlugins` (lines 88-115): initialise if needed; if the
plugin directory exists, load every discovered file passing
`ShouldLoadScript` in discovery order (the `FileScanner` collaborator is
abstracted as the `files` list); finally set `_pluginsLoaded = true`.
(`SetupHotReloading` only installs the file watcher, whose effect is the
`notifyFileChanged` entry point below.) -/
def LoadPlugins (dirExists : Bool) (files : List String)
    (disk : String → FileBehavior) (st : EngineState) : EngineState :=
  { (if dirExists then
       (files.foldl
         (fun s p => if ShouldLoadScript p then LoadPlugin disk p s else s)
         (initIfNeeded st))
     else initIfNeeded st) with
    pluginsLoaded := true }

/-- Modelled from the spec: `HookEngine::UnsubscribeAll(plugin)` "removes
every subscription entry owned by the given plugin, across all event names"
(`HookEngine.cpp` is not part of the excerpt). -/
def unsubscribeAll (pid : Nat) (subs : List (String × Nat)) :
    List (String × Nat) :=
  subs.filter (fun s => s.2 ≠ pid)

/-- Modelled from the spec: `HookEngine::Subscribe(eventName, plugin,
callback)` "appends to the event's subscriber sequence"; subscription is made
by running plugin code, so it is attributed to a plugin alive in the
registry. -/
def subscribeHook (event : String) (pid : Nat) (st : EngineState) :
    EngineState :=
  if pid ∈ st.plugins.map Plugin.id then
    { st with subscriptions := st.subscriptions ++ [(event, pid)] }
  else st

/-- Modelled from the spec: `HookEngine` dispatch "invokes each subscriber's
callback, in subscription order". -/
def dispatchHook (event : String) (st : EngineState) : EngineState :=
  { st with
    trace := st.trace ++
      (st.subscriptions.filter (fun s => s.1 = event)).map
        (fun s => Event.hookCall s.2) }

/-- Mutation of the registry entry for the plugin object `x` (the other
entries are untouched): set its `HasStarted` flag to `b`. -/
def setStartedIf (x : Nat) (b : Bool) (q : Plugin) : Plugin :=
  if q.id = x then { q with hasStarted := b } else q

/-- Mutation of the registry entry for the plugin object `x`: record what its
re-executed `Load` registered (new metadata, new code behaviour). -/
def reloadUpdate (x : Nat) (md : PluginMetadata) (a b : Option String)
    (q : Plugin) : Plugin :=
  if q.id = x then { q with metadata := md, startThrows := a, stopThrows := b }
  else q

/-- The console-error event of a caught exception, if one was thrown
(`catch (const std::exception& e) { _console.WriteLineError(e.what()); }`). -/
def errEvents : Option String → List Event
  | some e => [Event.consoleError e]
  | none => []

/-- The events `StopPlugin` emits for a started plugin, in order:
`UnsubscribeAll`, the plugin-stopped observer notifications, the `Stop` call,
then the error line if `Stop` threw. -/
def stopEvents (observers : Nat) (pl : Plugin) : List Event :=
  Event.unsubscribeAll pl.id ::
    (List.replicate observers (Event.pluginStoppedNotify pl.id) ++
      (Event.stopCall pl.id pl.path :: errEvents pl.stopThrows))

/-- `ScriptEngine::StopPlugin` (lines 142-162): if the plugin has started,
first `_hookEngine.UnsubscribeAll(plugin)`, then invoke every
`_pluginStoppedSubscriptions` callback, then call `plugin->Stop()` inside its
execution scope, catching an exception and writing it to the console
(`stopEvents` records those effects in that order); otherwise do nothing. -/
def StopPlugin (pl : Plugin) (st : EngineState) : EngineState :=
  if pl.hasStarted then
    { st with
      subscriptions := unsubscribeAll pl.id st.subscriptions
      plugins := st.plugins.map (setStartedIf pl.id false)
      trace := st.trace ++ stopEvents st.pluginStoppedObservers pl }
  else st

/-- The events one `StartPlugins` loop iteration emits for a plugin: nothing
if it has already started, otherwise the `Start` call followed by the error
line if `Start` threw. -/
def startEvents (pl : Plugin) : List Event :=
  if pl.hasStarted then []
  else Event.startCall pl.id pl.path :: errEvents pl.startThrows

/-- One iteration of the `StartPlugins` loop body (lines 233-247): if the
plugin has not started, call `plugin->Start()` inside its execution scope,
catching an exception and writing it to the console.  (Modelled from the
spec: a `Start` that throws leaves the plugin "in the Loaded (not Started)
state".) -/
def startOne (pl : Plugin) (st : EngineState) : EngineState :=
  if pl.hasStarted then st
  else
    match pl.startThrows with
    | some e =>
        { st with
          trace := st.trace ++ [Event.startCall pl.id pl.path, Event.consoleError e] }
    | none =>
        { st with
          plugins := st.plugins.map (setStartedIf pl.id true)
          trace := st.trace ++ [Event.startCall pl.id pl.path] }

/-- `ScriptEngine::StartPlugins` (lines 231-249): apply the loop body to every
registered plugin in registry order, then set `_pluginsStarted = true`. -/
def StartPlugins (st : EngineState) : EngineState :=
  { st.plugins.foldl (fun s pl => startOne pl s) st with pluginsStarted := true }

/-- `ScriptEngine::StopPlugins` (lines 251-258): `StopPlugin` on every
registered plugin in registry order, then clear `_pluginsStarted`. -/
def StopPlugins (st : EngineState) : EngineState :=
  { st.plugins.foldl (fun s pl => StopPlugin pl s) st with pluginsStarted := false }

/-- `ScriptEngine::UnloadPlugins` (lines 219-229): `StopPlugins`, log
"Unloaded" for each plugin, clear the registry and both flags. -/
def UnloadPlugins (st : EngineState) : EngineState :=
  { StopPlugins st with
    trace := (StopPlugins st).trace ++
      (StopPlugins st).plugins.map
        (fun pl => logPluginInfoLine pl.metadata.Name "Unloaded")
    plugins := []
    pluginsLoaded := false
    pluginsStarted := false }

/-- The file watcher callback installed by `SetupHotReloading`
(lines 176-179): under `_changedPluginFilesMutex`, `emplace` the changed path
into the `std::unordered_set` `_changedPluginFiles` (a no-op when the path is
already pending). -/
def notifyFileChanged (path : String) (st : EngineState) : EngineState :=
  if path ∈ st.changedPluginFiles then st
  else { st with changedPluginFiles := st.changedPluginFiles ++ [path] }

/-- One iteration of the `AutoReloadPlugins` loop body (lines 192-214): find
the first registered plugin whose path equals the changed path; if found,
`StopPlugin` it, then `plugin->Load()` (catching an exception), log
"Reloaded" and `plugin->Start()` (also under the same catch). -/
def reloadFound (disk : String → FileBehavior) (path : String) (pl : Plugin)
    (st1 : EngineState) : EngineState :=
  match (disk path).load with
  | Except.error e =>
      { st1 with
        trace := st1.trace ++ [Event.loadCall pl.id path, Event.consoleError e] }
  | Except.ok md =>
      match (disk path).startThrows with
      | some e =>
          { st1 with
            plugins := st1.plugins.map
              (reloadUpdate pl.id md (disk path).startThrows (disk path).stopThrows)
            trace := st1.trace ++
              [Event.loadCall pl.id path, logPluginInfoLine md.Name "Reloaded",
               Event.startCall pl.id path, Event.consoleError e] }
      | none =>
          { st1 with
            plugins := (st1.plugins.map
                (reloadUpdate pl.id md (disk path).startThrows
                  (disk path).stopThrows)).map
              (setStartedIf pl.id true)
            trace := st1.trace ++
              [Event.loadCall pl.id path, logPluginInfoLine md.Name "Reloaded",
               Event.startCall pl.id path] }

/-- One iteration of the `AutoReloadPlugins` loop (continued): dispatch on
whether the changed path matches a registered plugin. -/
def reloadOne (disk : String → FileBehavior) (path : String)
    (st : EngineState) : EngineState :=
  match st.plugins.find? (fun pl => pl.path = path) with
  | none => st
  | some pl => reloadFound disk path pl (StopPlugin pl st)

/-- `ScriptEngine::AutoReloadPlugins` (lines 187-217): if the change set is
non-empty, process each pending path with the loop body above, then clear the
change set. -/
def AutoReloadPlugins (disk : String → FileBehavior) (st : EngineState) :
    EngineState :=
  if st.changedPluginFiles.length > 0 then
    { st.changedPluginFiles.foldl (fun s p => reloadOne disk p s) st with
      changedPluginFiles := [] }
  else st

/-- Console output of one REPL snippet evaluation (lines 295-304): an error
line on evaluation failure, the `Stringify`-ed result on a defined result,
nothing on `undefined`. -/
def replOutput (r : EvalResult) : List Event :=
  match r with
  | EvalResult.err m => [Event.consoleError m]
  | EvalResult.undef => []
  | EvalResult.ok d => [Event.consoleLine d]

/-- The events of the `ProcessREPL` drain loop (lines 289-308) on a queue:
for each entry in FIFO order, the snippet's console output followed by
`promise.set_value()`. -/
def replTrace (evalFn : String → EvalResult) :
    List (Nat × String) → List Event
  | [] => []
  | (pid, cmd) :: rest =>
      replOutput (evalFn cmd) ++ [Event.promiseFulfilled pid] ++
        replTrace evalFn rest

/-- `ScriptEngine::ProcessREPL` (lines 287-309): pop the queue front-to-back
until empty, evaluating each snippet (`duk_peval_string` is abstracted as
`evalFn`), writing its output and fulfilling its promise. -/
def ProcessREPL (evalFn : String → EvalResult) (st : EngineState) :
    EngineState :=
  { st with
    evalQueue := []
    trace := st.trace ++ replTrace evalFn st.evalQueue }

/-- `ScriptEngine::Eval` (lines 311-317): create a promise, `emplace` the
(promise, source) pair at the tail of `_evalQueue`, hand the future back (the
returned `Nat` is the promise's id). -/
def Eval (s : String) (st : EngineState) : EngineState × Nat :=
  ({ st with
      evalQueue := st.evalQueue ++ [(st.nextPromiseId, s)]
      nextPromiseId := st.nextPromiseId + 1 },
   st.nextPromiseId)

/-- `uint32_t` subtraction `tick - _lastHotReloadCheckTick` (line 276). -/
def sub32 (a b : Nat) : Nat :=
  (a % 2 ^ 32 + 2 ^ 32 - b % 2 ^ 32) % 2 ^ 32

/-- `ScriptEngine::Update` without the trailing `ProcessREPL`
(lines 262-282): initialise if needed; if plugins are loaded, either start
them (when not yet started) or, when `tick - _lastHotReloadCheckTick > 1000`,
run `AutoReloadPlugins` and reset the timer. -/
def updateCore (tick : Nat) (disk : String → FileBehavior)
    (st : EngineState) : EngineState :=
  if (initIfNeeded st).pluginsLoaded then
    if (initIfNeeded st).pluginsStarted then
      if sub32 tick (initIfNeeded st).lastHotReloadCheckTick > 1000 then
        { AutoReloadPlugins disk (initIfNeeded st) with
          lastHotReloadCheckTick := tick }
      else initIfNeeded st
    else StartPlugins (initIfNeeded st)
  else initIfNeeded st

/-- `ScriptEngine::Update` (lines 260-285): the branch structure above,
always followed by `ProcessREPL`. -/
def Update (tick : Nat) (disk : String → FileBehavior)
    (evalFn : String → EvalResult) (st : EngineState) : EngineState :=
  ProcessREPL evalFn (updateCore tick disk st)

/-- The engine's entry points, as invokable operations (their collaborator
inputs — directory scan results, file contents, evaluation outcomes, clock —
are carried as data). -/
inductive Op where
  | initialiseOp
  | loadPluginsOp (dirExists : Bool) (files : List String) (disk : String → FileBehavior)
  | loadPluginOp (disk : String → FileBehavior) (path : String)
  | startPluginsOp
  | stopPluginsOp
  | unloadPluginsOp
  | autoReloadOp (disk : String → FileBehavior)
  | updateOp (tick : Nat) (disk : String → FileBehavior) (evalFn : String → EvalResult)
  | evalRequestOp (s : String)
  | fileChangedOp (path : String)
  | subscribeOp (event : String) (pid : Nat)
  | dispatchOp (event : String)
  | processREPLOp (evalFn : String → EvalResult)

/-- Interpretation of one operation on the engine state. -/
def step : Op → EngineState → EngineState
  | Op.initialiseOp, st => initialise st
  | Op.loadPluginsOp d f disk, st => LoadPlugins d f disk st
  | Op.loadPluginOp disk p, st => LoadPlugin disk p st
  | Op.startPluginsOp, st => StartPlugins st
  | Op.stopPluginsOp, st => StopPlugins st
  | Op.unloadPluginsOp, st => UnloadPlugins st
  | Op.autoReloadOp disk, st => AutoReloadPlugins disk st
  | Op.updateOp tick disk evalFn, st => Update tick disk evalFn st
  | Op.evalRequestOp s, st => (Eval s st).1
  | Op.fileChangedOp p, st => notifyFileChanged p st
  | Op.subscribeOp ev pid, st => subscribeHook ev pid st
  | Op.dispatchOp ev, st => dispatchHook ev st
  | Op.processREPLOp evalFn, st => ProcessREPL evalFn st

/-- Run a sequence of operations. -/
def run (ops : List Op) (st : EngineState) : EngineState :=
  ops.foldl (fun s op => step op s) st

/-- Does this event deliver a `Start`, `Stop` or hook callback to the plugin
object `id`? -/
def callsInto (id : Nat) : Event → Bool
  | Event.startCall i _ => i == id
  | Event.stopCall i _ => i == id
  | Event.hookCall i => i == id
  | _ => false

/-- The plugin object `id` occupies no slot: it is a past object (its id is
spent), absent from the registry, owns no hook subscription, and the trace
holds no `Start`, `Stop` or hook-callback delivery to it. -/
def neverTouched (id : Nat) (st : EngineState) : Prop :=
  id < st.nextPluginId ∧
  id ∉ st.plugins.map Plugin.id ∧
  (∀ s ∈ st.subscriptions, s.2 ≠ id) ∧
  (∀ e ∈ st.trace, callsInto id e = false)

/-- Is this event a `plugin->Load()` invocation for the given path? -/
def isLoadCallFor (p : String) : Event → Bool
  | Event.loadCall _ q => q == p
  | _ => false

/-- How many `plugin->Load()` invocations for path `p` a trace holds. -/
def loadAttempts (p : String) (tr : List Event) : Nat :=
  (tr.filter (isLoadCallFor p)).length

/-! ### Concrete sample data -/

/-- Metadata of a plugin compatible with the host (requires API v1). -/
def mdOk : PluginMetadata := { Name := "alpha", MinApiVersion := 1 }

/-- Metadata of a plugin requiring a newer API than the host's v1. -/
def mdNew : PluginMetadata := { Name := "beta", MinApiVersion := 999 }

/-- A disk on which every file loads fine and requires API v1. -/
def diskOk : String → FileBehavior :=
  fun _ => { load := Except.ok mdOk, startThrows := none, stopThrows := none }

/-- A disk on which every file loads fine but requires API v999. -/
def diskNew : String → FileBehavior :=
  fun _ => { load := Except.ok mdNew, startThrows := none, stopThrows := none }

/-- An evaluator for which every snippet evaluates to `undefined`. -/
def evalUndef : String → EvalResult := fun _ => EvalResult.undef

/-- An evaluator echoing every snippet as its printable result. -/
def evalShow : String → EvalResult := fun s => EvalResult.ok s

/-- An evaluator for which every snippet throws. -/
def evalBoom : String → EvalResult := fun _ => EvalResult.err "boom"

/-- A registered, started, compatible plugin bound to path `a.js`. -/
def plA : Plugin :=
  { id := 0, path := "a.js", metadata := mdOk
    startThrows := none, stopThrows := none, hasStarted := true }

/-- A not-yet-started plugin whose `Start` throws. -/
def plB : Plugin :=
  { id := 1, path := "b.js", metadata := mdOk
    startThrows := some "startfail", stopThrows := none, hasStarted := false }

/-- A not-yet-started plugin whose `Start` succeeds. -/
def plC : Plugin :=
  { id := 2, path := "c.js", metadata := mdOk
    startThrows := none, stopThrows := none, hasStarted := false }

/-- A running engine: `plA` loaded and started, its file pending reload. -/
def stRunning : EngineState :=
  { initState with
    initialised := true
    pluginsLoaded := true
    pluginsStarted := true
    plugins := [plA]
    nextPluginId := 1
    changedPluginFiles := ["a.js"] }

/-- An engine with two loaded, not yet started plugins. -/
def stStartable : EngineState :=
  { initState with
    initialised := true
    pluginsLoaded := true
    plugins := [plB, plC]
    nextPluginId := 3 }

/-- An engine in which the started `plA` owns one hook subscription and
another plugin owns another, with two plugin-stopped observers. -/
def stSub : EngineState :=
  { initState with
    initialised := true
    pluginsLoaded := true
    pluginsStarted := true
    plugins := [plA]
    nextPluginId := 1
    subscriptions := [("interval.tick", 0), ("map.changed", 7)]
    pluginStoppedObservers := 2 }

/-! ### Generic fold lemmas -/

lemma foldl_pres {α β : Type} (f : α → EngineState → EngineState)
    (g : EngineState → β) (hf : ∀ a s, g (f a s) = g s) :
    ∀ (l : List α) (st : EngineState),
      g (l.foldl (fun s a => f a s) st) = g st
  | [], _ => rfl
  | a :: l, st => by
      rw [List.foldl_cons, foldl_pres f g hf l, hf]

lemma foldl_pred {α : Type} (f : α → EngineState → EngineState)
    (P : EngineState → Prop) :
    ∀ l : List α, (∀ a ∈ l, ∀ s, P s → P (f a s)) →
      ∀ st : EngineState, P st → P (l.foldl (fun s a => f a s) st)
  | [], _, _, hst => hst
  | a :: l, hf, st, hst =>
      foldl_pred f P l (fun b hb => hf b (List.mem_cons_of_mem _ hb)) _
        (hf a (List.mem_cons_self _ _) st hst)

/-! ### Field lemmas for the per-plugin registry updates -/

lemma setStartedIf_id (x : Nat) (b : Bool) (q : Plugin) :
    (setStartedIf x b q).id = q.id := by
  unfold setStartedIf
  by_cases h : q.id = x <;> simp [h]

lemma setStartedIf_path (x : Nat) (b : Bool) (q : Plugin) :
    (setStartedIf x b q).path = q.path := by
  unfold setStartedIf
  by_cases h : q.id = x <;> simp [h]

lemma reloadUpdate_id (x : Nat) (md : PluginMetadata) (a b : Option String)
    (q : Plugin) : (reloadUpdate x md a b q).id = q.id := by
  unfold reloadUpdate
  by_cases h : q.id = x <;> simp [h]

lemma reloadUpdate_path (x : Nat) (md : PluginMetadata) (a b : Option String)
    (q : Plugin) : (reloadUpdate x md a b q).path = q.path := by
  unfold reloadUpdate
  by_cases h : q.id = x <;> simp [h]

lemma map_field_comp {β : Type} (f : Plugin → β) {g : Plugin → Plugin}
    (hg : ∀ q, f (g q) = f q) :
    ∀ l : List Plugin, (l.map g).map f = l.map f
  | [] => rfl
  | q :: l => by simp [hg q, map_field_comp f hg l]

/-! ### Frame lemmas for `startOne` -/

lemma startOne_trace (pl : Plugin) (st : EngineState) :
    (startOne pl st).trace = st.trace ++ startEvents pl := by
  unfold startOne startEvents
  cases h : pl.hasStarted
  · cases hs : pl.startThrows <;> simp [hs, errEvents]
  · simp

lemma startOne_ids (pl : Plugin) (st : EngineState) :
    (startOne pl st).plugins.map Plugin.id = st.plugins.map Plugin.id := by
  unfold startOne
  split
  · rfl
  · split
    · rfl
    · exact map_field_comp Plugin.id (setStartedIf_id pl.id true) st.plugins

lemma startOne_paths (pl : Plugin) (st : EngineState) :
    (startOne pl st).plugins.map Plugin.path = st.plugins.map Plugin.path := by
  unfold startOne
  split
  · rfl
  · split
    · rfl
    · exact map_field_comp Plugin.path (setStartedIf_path pl.id true) st.plugins

lemma startOne_subscriptions (pl : Plugin) (st : EngineState) :
    (startOne pl st).subscriptions = st.subscriptions := by
  unfold startOne
  split
  · rfl
  · split <;> rfl

lemma startOne_nextPluginId (pl : Plugin) (st : EngineState) :
    (startOne pl st).nextPluginId = st.nextPluginId := by
  unfold startOne
  split
  · rfl
  · split <;> rfl

lemma startOne_evalQueue (pl : Plugin) (st : EngineState) :
    (startOne pl st).evalQueue = st.evalQueue := by
  unfold startOne
  split
  · rfl
  · split <;> rfl

lemma startOne_registerCount (pl : Plugin) (st : EngineState) :
    (startOne pl st).registerCount = st.registerCount := by
  unfold startOne
  split
  · rfl
  · split <;> rfl

/-! ### Frame lemmas for `StopPlugin` -/

lemma StopPlugin_trace (pl : Plugin) (st : EngineState) :
    (StopPlugin pl st).trace =
      st.trace ++ if pl.hasStarted then stopEvents st.pluginStoppedObservers pl
                  else [] := by
  unfold StopPlugin
  split <;> simp_all

lemma StopPlugin_ids (pl : Plugin) (st : EngineState) :
    (StopPlugin pl st).plugins.map Plugin.id = st.plugins.map Plugin.id := by
  unfold StopPlugin
  split
  · exact map_field_comp Plugin.id (setStartedIf_id pl.id false) st.plugins
  · rfl

lemma StopPlugin_paths (pl : Plugin) (st : EngineState) :
    (StopPlugin pl st).plugins.map Plugin.path = st.plugins.map Plugin.path := by
  unfold StopPlugin
  split
  · exact map_field_comp Plugin.path (setStartedIf_path pl.id false) st.plugins
  · rfl

lemma StopPlugin_subscriptions_sub (pl : Plugin) (st : EngineState) :
    ∀ s ∈ (StopPlugin pl st).subscriptions, s ∈ st.subscriptions := by
  unfold StopPlugin
  split
  · intro s hs
    exact (List.mem_filter.mp hs).1
  · intro s hs
    exact hs

lemma StopPlugin_nextPluginId (pl : Plugin) (st : EngineState) :
    (StopPlugin pl st).nextPluginId = st.nextPluginId := by
  unfold StopPlugin
  split <;> rfl

lemma StopPlugin_evalQueue (pl : Plugin) (st : EngineState) :
    (StopPlugin pl st).evalQueue = st.evalQueue := by
  unfold StopPlugin
  split <;> rfl

lemma StopPlugin_registerCount (pl : Plugin) (st : EngineState) :
    (StopPlugin pl st).registerCount = st.registerCount := by
  unfold StopPlugin
  split <;> rfl

lemma StopPlugin_changed (pl : Plugin) (st : EngineState) :
    (StopPlugin pl st).changedPluginFiles = st.changedPluginFiles := by
  unfold StopPlugin
  split <;> rfl

/-! ### Frame lemmas for `reloadFound` / `reloadOne` -/

lemma reloadFound_ids (disk : String → FileBehavior) (p : String) (pl : Plugin)
    (st1 : EngineState) :
    (reloadFound disk p pl st1).plugins.map Plugin.id =
      st1.plugins.map Plugin.id := by
  unfold reloadFound
  split
  · rfl
  · split
    · exact map_field_comp Plugin.id (reloadUpdate_id pl.id _ _ _) st1.plugins
    · rw [map_field_comp Plugin.id (setStartedIf_id pl.id true),
        map_field_comp Plugin.id (reloadUpdate_id pl.id _ _ _)]

lemma reloadFound_paths (disk : String → FileBehavior) (p : String)
    (pl : Plugin) (st1 : EngineState) :
    (reloadFound disk p pl st1).plugins.map Plugin.path =
      st1.plugins.map Plugin.path := by
  unfold reloadFound
  split
  · rfl
  · split
    · exact map_field_comp Plugin.path (reloadUpdate_path pl.id _ _ _) st1.plugins
    · rw [map_field_comp Plugin.path (setStartedIf_path pl.id true),
        map_field_comp Plugin.path (reloadUpdate_path pl.id _ _ _)]

lemma reloadFound_subscriptions (disk : String → FileBehavior) (p : String)
    (pl : Plugin) (st1 : EngineState) :
    (reloadFound disk p pl st1).subscriptions = st1.subscriptions := by
  unfold reloadFound
  split
  · rfl
  · split <;> rfl

lemma reloadFound_nextPluginId (disk : String → FileBehavior) (p : String)
    (pl : Plugin) (st1 : EngineState) :
    (reloadFound disk p pl st1).nextPluginId = st1.nextPluginId := by
  unfold reloadFound
  split
  · rfl
  · split <;> rfl

lemma reloadFound_evalQueue (disk : String → FileBehavior) (p : String)
    (pl : Plugin) (st1 : EngineState) :
    (reloadFound disk p pl st1).evalQueue = st1.evalQueue := by
  unfold reloadFound
  split
  · rfl
  · split <;> rfl

lemma reloadFound_registerCount (disk : String → FileBehavior) (p : String)
    (pl : Plugin) (st1 : EngineState) :
    (reloadFound disk p pl st1).registerCount = st1.registerCount := by
  unfold reloadFound
  split
  · rfl
  · split <;> rfl

lemma reloadOne_ids (disk : String → FileBehavior) (p : String)
    (st : EngineState) :
    (reloadOne disk p st).plugins.map Plugin.id = st.plugins.map Plugin.id := by
  unfold reloadOne
  split
  · rfl
  · rw [reloadFound_ids, StopPlugin_ids]

lemma reloadOne_paths (disk : String → FileBehavior) (p : String)
    (st : EngineState) :
    (reloadOne disk p st).plugins.map Plugin.path =
      st.plugins.map Plugin.path := by
  unfold reloadOne
  split
  · rfl
  · rw [reloadFound_paths, StopPlugin_paths]

lemma reloadOne_evalQueue (disk : String → FileBehavior) (p : String)
    (st : EngineState) :
    (reloadOne disk p st).evalQueue = st.evalQueue := by
  unfold reloadOne
  split
  · rfl
  · rw [reloadFound_evalQueue, StopPlugin_evalQueue]

lemma reloadOne_registerCount (disk : String → FileBehavior) (p : String)
    (st : EngineState) :
    (reloadOne disk p st).registerCount = st.registerCount := by
  unfold reloadOne
  split
  · rfl
  · rw [reloadFound_registerCount, StopPlugin_registerCount]

lemma reloadOne_nextPluginId (disk : String → FileBehavior) (p : String)
    (st : EngineState) :
    (reloadOne disk p st).nextPluginId = st.nextPluginId := by
  unfold reloadOne
  split
  · rfl
  · rw [reloadFound_nextPluginId, StopPlugin_nextPluginId]

/-! ### Events that deliver no call into a given plugin object -/

lemma callsInto_errEvents (id : Nat) (o : Option String) :
    ∀ e ∈ errEvents o, callsInto id e = false := by
  intro e he
  cases o with
  | none => simp [errEvents] at he
  | some m => simp [errEvents] at he; subst he; rfl

lemma callsInto_startEvents {id : Nat} {pl : Plugin} (h : pl.id ≠ id) :
    ∀ e ∈ startEvents pl, callsInto id e = false := by
  intro e he
  unfold startEvents at he
  cases hs : pl.hasStarted
  · simp [hs] at he
    rcases he with rfl | he
    · simpa [callsInto, beq_iff_eq] using h
    · exact callsInto_errEvents id _ e he
  · simp [hs] at he

lemma callsInto_stopEvents {id : Nat} {pl : Plugin} (h : pl.id ≠ id) (n : Nat) :
    ∀ e ∈ stopEvents n pl, callsInto id e = false := by
  intro e he
  unfold stopEvents at he
  simp [List.mem_replicate] at he
  rcases he with rfl | ⟨-, rfl⟩ | rfl | he
  · rfl
  · rfl
  · simpa [callsInto, beq_iff_eq] using h
  · exact callsInto_errEvents id _ e he

lemma callsInto_replOutput (id : Nat) (r : EvalResult) :
    ∀ e ∈ replOutput r, callsInto id e = false := by
  intro e he
  cases r with
  | err m => simp [replOutput] at he; subst he; rfl
  | undef => simp [replOutput] at he
  | ok d => simp [replOutput] at he; subst he; rfl

lemma callsInto_replTrace (id : Nat) (f : String → EvalResult) :
    ∀ q : List (Nat × String), ∀ e ∈ replTrace f q, callsInto id e = false
  | [], e, he => by simp [replTrace] at he
  | (pid, cmd) :: rest, e, he => by
      simp only [replTrace, List.append_assoc, List.mem_append,
        List.mem_singleton] at he
      rcases he with he | rfl | he
      · exact callsInto_replOutput id _ e he
      · rfl
      · exact callsInto_replTrace id f rest e he

/-! ### `neverTouched` is preserved by every engine operation -/

lemma neverTouched_initialise {id : Nat} {st : EngineState}
    (h : neverTouched id st) : neverTouched id (initialise st) := by
  obtain ⟨h1, h2, h3, h4⟩ := h
  refine ⟨h1, h2, h3, ?_⟩
  intro e he
  simp [initialise] at he
  rcases he with he | rfl
  · exact h4 e he
  · rfl

lemma neverTouched_initIfNeeded {id : Nat} {st : EngineState}
    (h : neverTouched id st) : neverTouched id (initIfNeeded st) := by
  unfold initIfNeeded
  split
  · exact h
  · exact neverTouched_initialise h

lemma neverTouched_LoadPlugin {id : Nat} {st : EngineState}
    (disk : String → FileBehavior) (p : String) (h : neverTouched id st) :
    neverTouched id (LoadPlugin disk p st) := by
  obtain ⟨h1, h2, h3, h4⟩ := h
  unfold LoadPlugin
  cases hl : (disk p).load with
  | error e =>
      refine ⟨by show id < st.nextPluginId + 1; omega, h2, h3, ?_⟩
      intro ev hev
      simp at hev
      rcases hev with hev | rfl | rfl
      · exact h4 _ hev
      · rfl
      · rfl
  | ok md =>
      by_cases hv : md.MinApiVersion ≤ OPENRCT2_PLUGIN_API_VERSION
      · simp only [hv, if_true]
        refine ⟨by show id < st.nextPluginId + 1; omega, ?_, h3, ?_⟩
        · simp only [List.map_append, List.map_cons, List.map_nil,
            List.mem_append, List.mem_singleton]
          rintro (hmem | hmem)
          · exact h2 hmem
          · omega
        · intro ev hev
          simp at hev
          rcases hev with hev | rfl | rfl
          · exact h4 _ hev
          · rfl
          · rfl
      · simp only [hv, if_false]
        refine ⟨by show id < st.nextPluginId + 1; omega, h2, h3, ?_⟩
        intro ev hev
        simp at hev
        rcases hev with hev | rfl | rfl
        · exact h4 _ hev
        · rfl
        · rfl

lemma neverTouched_LoadPlugins {id : Nat} (d : Bool) (files : List String)
    (disk : String → FileBehavior) {st : EngineState} (h : neverTouched id st) :
    neverTouched id (LoadPlugins d files disk st) := by
  have h0 := neverTouched_initIfNeeded h
  have hfold :
      neverTouched id
        (files.foldl
          (fun s p => if ShouldLoadScript p then LoadPlugin disk p s else s)
          (initIfNeeded st)) := by
    refine foldl_pred _ (neverTouched id) files ?_ _ h0
    intro p _ s hs
    by_cases hp : ShouldLoadScript p
    · simpa [hp] using neverTouched_LoadPlugin disk p hs
    · simpa [hp] using hs
  unfold LoadPlugins
  by_cases hd : d
  · simp only [hd, if_true]
    exact hfold
  · simp only [hd, if_false]
    exact h0

lemma neverTouched_startOne {id : Nat} {pl : Plugin} {st : EngineState}
    (hpl : pl.id ≠ id) (h : neverTouched id st) :
    neverTouched id (startOne pl st) := by
  obtain ⟨h1, h2, h3, h4⟩ := h
  refine ⟨?_, ?_, ?_, ?_⟩
  · rw [startOne_nextPluginId]; exact h1
  · rw [startOne_ids]; exact h2
  · rw [startOne_subscriptions]; exact h3
  · rw [startOne_trace]
    intro e he
    rcases List.mem_append.mp he with he | he
    · exact h4 _ he
    · exact callsInto_startEvents hpl e he

lemma neverTouched_StartPlugins {id : Nat} {st : EngineState}
    (h : neverTouched id st) : neverTouched id (StartPlugins st) := by
  have hl : ∀ pl ∈ st.plugins, pl.id ≠ id := by
    intro pl hpl heq
    exact h.2.1 (heq ▸ List.mem_map_of_mem Plugin.id hpl)
  exact foldl_pred _ (neverTouched id) st.plugins
    (fun pl hpl s hs => neverTouched_startOne (hl pl hpl) hs) st h

lemma neverTouched_StopPlugin {id : Nat} {pl : Plugin} {st : EngineState}
    (hpl : pl.id ≠ id) (h : neverTouched id st) :
    neverTouched id (StopPlugin pl st) := by
  obtain ⟨h1, h2, h3, h4⟩ := h
  refine ⟨?_, ?_, ?_, ?_⟩
  · rw [StopPlugin_nextPluginId]; exact h1
  · rw [StopPlugin_ids]; exact h2
  · intro s hs
    exact h3 s (StopPlugin_subscriptions_sub pl st s hs)
  · rw [StopPlugin_trace]
    intro e he
    rcases List.mem_append.mp he with he | he
    · exact h4 _ he
    · split at he
      · exact callsInto_stopEvents hpl _ _ he
      · simp at he

lemma neverTouched_StopPlugins {id : Nat} {st : EngineState}
    (h : neverTouched id st) : neverTouched id (StopPlugins st) := by
  have hl : ∀ pl ∈ st.plugins, pl.id ≠ id := by
    intro pl hpl heq
    exact h.2.1 (heq ▸ List.mem_map_of_mem Plugin.id hpl)
  exact foldl_pred _ (neverTouched id) st.plugins
    (fun pl hpl s hs => neverTouched_StopPlugin (hl pl hpl) hs) st h

lemma neverTouched_UnloadPlugins {id : Nat} {st : EngineState}
    (h : neverTouched id st) : neverTouched id (UnloadPlugins st) := by
  obtain ⟨h1, h2, h3, h4⟩ := neverTouched_StopPlugins h
  refine ⟨h1, by simp [UnloadPlugins], h3, ?_⟩
  show ∀ e ∈ (StopPlugins st).trace ++ _, callsInto id e = false
  intro e he
  rcases List.mem_append.mp he with he | he
  · exact h4 _ he
  · rcases List.mem_map.mp he with ⟨pl, -, rfl⟩
    rfl

lemma reloadFound_trace_safe {id : Nat} {pl : Plugin}
    (disk : String → FileBehavior) (p : String) {st1 : EngineState}
    (hpl : pl.id ≠ id)
    (h : ∀ e ∈ st1.trace, callsInto id e = false) :
    ∀ e ∈ (reloadFound disk p pl st1).trace, callsInto id e = false := by
  intro ev hev
  unfold reloadFound at hev
  cases hl : (disk p).load with
  | error e =>
      rw [hl] at hev
      have hev' : ev ∈ st1.trace ++
          [Event.loadCall pl.id p, Event.consoleError e] := hev
      rcases List.mem_append.mp hev' with h' | h'
      · exact h _ h'
      · simp only [List.mem_cons, List.mem_singleton, List.not_mem_nil,
          or_false] at h'
        rcases h' with rfl | rfl
        · rfl
        · rfl
  | ok md =>
      rw [hl] at hev
      cases ht : (disk p).startThrows with
      | some e =>
          rw [ht] at hev
          have hev' : ev ∈ st1.trace ++
              [Event.loadCall pl.id p, logPluginInfoLine md.Name "Reloaded",
               Event.startCall pl.id p, Event.consoleError e] := hev
          rcases List.mem_append.mp hev' with h' | h'
          · exact h _ h'
          · simp only [List.mem_cons, List.mem_singleton, List.not_mem_nil,
              or_false] at h'
            rcases h' with rfl | rfl | rfl | rfl
            · rfl
            · rfl
            · simpa [callsInto, beq_iff_eq] using hpl
            · rfl
      | none =>
          rw [ht] at hev
          have hev' : ev ∈ st1.trace ++
              [Event.loadCall pl.id p, logPluginInfoLine md.Name "Reloaded",
               Event.startCall pl.id p] := hev
          rcases List.mem_append.mp hev' with h' | h'
          · exact h _ h'
          · simp only [List.mem_cons, List.mem_singleton, List.not_mem_nil,
              or_false] at h'
            rcases h' with rfl | rfl | rfl
            · rfl
            · rfl
            · simpa [callsInto, beq_iff_eq] using hpl

lemma neverTouched_reloadOne {id : Nat} (disk : String → FileBehavior)
    (p : String) {st : EngineState} (h : neverTouched id st) :
    neverTouched id (reloadOne disk p st) := by
  unfold reloadOne
  cases hf : st.plugins.find? (fun pl => pl.path = p) with
  | none => exact h
  | some pl =>
      have hmem : pl ∈ st.plugins := List.mem_of_find?_eq_some hf
      have hpl : pl.id ≠ id := fun heq =>
        h.2.1 (heq ▸ List.mem_map_of_mem Plugin.id hmem)
      obtain ⟨a1, a2, a3, a4⟩ := neverTouched_StopPlugin hpl h
      refine ⟨?_, ?_, ?_, ?_⟩
      · rw [reloadFound_nextPluginId]; exact a1
      · rw [reloadFound_ids]; exact a2
      · rw [reloadFound_subscriptions]; exact a3
      · exact reloadFound_trace_safe disk p hpl a4

lemma neverTouched_AutoReload {id : Nat} (disk : String → FileBehavior)
    {st : EngineState} (h : neverTouched id st) :
    neverTouched id (AutoReloadPlugins disk st) := by
  unfold AutoReloadPlugins
  split
  · have hfold := foldl_pred (fun p s => reloadOne disk p s) (neverTouched id)
      st.changedPluginFiles
      (fun p _ s hs => neverTouched_reloadOne disk p hs) st h
    exact ⟨hfold.1, hfold.2.1, hfold.2.2.1, hfold.2.2.2⟩
  · exact h

lemma neverTouched_ProcessREPL {id : Nat} (f : String → EvalResult)
    {st : EngineState} (h : neverTouched id st) :
    neverTouched id (ProcessREPL f st) := by
  obtain ⟨h1, h2, h3, h4⟩ := h
  refine ⟨h1, h2, h3, ?_⟩
  intro e he
  rcases List.mem_append.mp he with he | he
  · exact h4 _ he
  · exact callsInto_replTrace id f _ e he

lemma neverTouched_Eval {id : Nat} (s : String) {st : EngineState}
    (h : neverTouched id st) : neverTouched id (Eval s st).1 :=
  h

lemma neverTouched_notifyFileChanged {id : Nat} (p : String)
    {st : EngineState} (h : neverTouched id st) :
    neverTouched id (notifyFileChanged p st) := by
  unfold notifyFileChanged
  split
  · exact h
  · exact h

lemma neverTouched_subscribeHook {id : Nat} (ev : String) (pid : Nat)
    {st : EngineState} (h : neverTouched id st) :
    neverTouched id (subscribeHook ev pid st) := by
  obtain ⟨h1, h2, h3, h4⟩ := h
  unfold subscribeHook
  split
  · next hp =>
    refine ⟨h1, h2, ?_, h4⟩
    intro s hs
    rcases List.mem_append.mp hs with hs | hs
    · exact h3 _ hs
    · rcases List.mem_singleton.mp hs with rfl
      intro heq
      exact h2 (heq ▸ hp)
  · exact ⟨h1, h2, h3, h4⟩

lemma neverTouched_dispatchHook {id : Nat} (ev : String) {st : EngineState}
    (h : neverTouched id st) : neverTouched id (dispatchHook ev st) := by
  obtain ⟨h1, h2, h3, h4⟩ := h
  refine ⟨h1, h2, h3, ?_⟩
  intro e he
  rcases List.mem_append.mp he with he | he
  · exact h4 _ he
  · rcases List.mem_map.mp he with ⟨s, hs, rfl⟩
    have := h3 s (List.mem_filter.mp hs).1
    simpa [callsInto, beq_iff_eq] using this

lemma neverTouched_updateCore {id : Nat} (tick : Nat)
    (disk : String → FileBehavior) {st : EngineState}
    (h : neverTouched id st) : neverTouched id (updateCore tick disk st) := by
  have h0 := neverTouched_initIfNeeded h
  unfold updateCore
  split_ifs
  · have := neverTouched_AutoReload disk h0
    exact ⟨this.1, this.2.1, this.2.2.1, this.2.2.2⟩
  · exact h0
  · exact neverTouched_StartPlugins h0
  · exact h0

lemma neverTouched_Update {id : Nat} (tick : Nat)
    (disk : String → FileBehavior) (evalFn : String → EvalResult)
    {st : EngineState} (h : neverTouched id st) :
    neverTouched id (Update tick disk evalFn st) :=
  neverTouched_ProcessREPL evalFn (neverTouched_updateCore tick disk h)

/-- Every engine operation preserves `neverTouched`. -/
lemma neverTouched_step {id : Nat} (op : Op) {st : EngineState}
    (h : neverTouched id st) : neverTouched id (step op st) := by
  cases op with
  | initialiseOp => exact neverTouched_initialise h
  | loadPluginsOp d f disk => exact neverTouched_LoadPlugins d f disk h
  | loadPluginOp disk p => exact neverTouched_LoadPlugin disk p h
  | startPluginsOp => exact neverTouched_StartPlugins h
  | stopPluginsOp => exact neverTouched_StopPlugins h
  | unloadPluginsOp => exact neverTouched_UnloadPlugins h
  | autoReloadOp disk => exact neverTouched_AutoReload disk h
  | updateOp tick disk evalFn => exact neverTouched_Update tick disk evalFn h
  | evalRequestOp s => exact neverTouched_Eval s h
  | fileChangedOp p => exact neverTouched_notifyFileChanged p h
  | subscribeOp ev pid => exact neverTouched_subscribeHook ev pid h
  | dispatchOp ev => exact neverTouched_dispatchHook ev h
  | processREPLOp evalFn => exact neverTouched_ProcessREPL evalFn h

/-- Every sequence of engine operations preserves `neverTouched`. -/
lemma neverTouched_run {id : Nat} (ops : List Op) {st : EngineState}
    (h : neverTouched id st) : neverTouched id (run ops st) := by
  induction ops generalizing st with
  | nil => exact h
  | cons op rest ih => exact ih (neverTouched_step op h)

/-! ### Trace structure of `StartPlugins` -/

lemma foldl_startOne_trace (l : List Plugin) (st : EngineState) :
    (l.foldl (fun s pl => startOne pl s) st).trace =
      st.trace ++ l.flatMap startEvents := by
  induction l generalizing st with
  | nil => simp
  | cons pl rest ih => simp [ih, startOne_trace, List.append_assoc]

lemma StartPlugins_trace (st : EngineState) :
    (StartPlugins st).trace = st.trace ++ st.plugins.flatMap startEvents := by
  show (st.plugins.foldl (fun s pl => startOne pl s) st).trace = _
  exact foldl_startOne_trace st.plugins st

lemma StartPlugins_pluginsStarted (st : EngineState) :
    (StartPlugins st).pluginsStarted = true := rfl

lemma StartPlugins_evalQueue (st : EngineState) :
    (StartPlugins st).evalQueue = st.evalQueue := by
  show (st.plugins.foldl (fun s pl => startOne pl s) st).evalQueue = _
  exact foldl_pres _ EngineState.evalQueue startOne_evalQueue st.plugins st

lemma StartPlugins_registerCount (st : EngineState) :
    (StartPlugins st).registerCount = st.registerCount := by
  show (st.plugins.foldl (fun s pl => startOne pl s) st).registerCount = _
  exact foldl_pres _ EngineState.registerCount startOne_registerCount
    st.plugins st

/-! ### Frame lemmas for `AutoReloadPlugins`, `ProcessREPL`, `updateCore` -/

lemma AutoReload_evalQueue (disk : String → FileBehavior) (st : EngineState) :
    (AutoReloadPlugins disk st).evalQueue = st.evalQueue := by
  unfold AutoReloadPlugins
  split
  · exact foldl_pres _ EngineState.evalQueue (reloadOne_evalQueue disk)
      st.changedPluginFiles st
  · rfl

lemma AutoReload_registerCount (disk : String → FileBehavior)
    (st : EngineState) :
    (AutoReloadPlugins disk st).registerCount = st.registerCount := by
  unfold AutoReloadPlugins
  split
  · exact foldl_pres _ EngineState.registerCount (reloadOne_registerCount disk)
      st.changedPluginFiles st
  · rfl

lemma AutoReload_pluginsStarted (disk : String → FileBehavior)
    (st : EngineState) :
    (AutoReloadPlugins disk st).pluginsStarted = st.pluginsStarted := by
  have hone : ∀ (p : String) (s : EngineState),
      (reloadOne disk p s).pluginsStarted = s.pluginsStarted := by
    intro p s
    unfold reloadOne
    split
    · rfl
    · show (reloadFound disk p _ (StopPlugin _ s)).pluginsStarted = _
      have h1 : ∀ (pl : Plugin) (s1 : EngineState),
          (reloadFound disk p pl s1).pluginsStarted = s1.pluginsStarted := by
        intro pl s1
        unfold reloadFound
        split
        · rfl
        · split <;> rfl
      have h2 : ∀ (pl : Plugin) (s1 : EngineState),
          (StopPlugin pl s1).pluginsStarted = s1.pluginsStarted := by
        intro pl s1
        unfold StopPlugin
        split <;> rfl
      rw [h1, h2]
  unfold AutoReloadPlugins
  split
  · exact foldl_pres _ EngineState.pluginsStarted hone st.changedPluginFiles st
  · rfl

lemma AutoReload_pluginsLoaded (disk : String → FileBehavior)
    (st : EngineState) :
    (AutoReloadPlugins disk st).pluginsLoaded = st.pluginsLoaded := by
  have hone : ∀ (p : String) (s : EngineState),
      (reloadOne disk p s).pluginsLoaded = s.pluginsLoaded := by
    intro p s
    unfold reloadOne
    split
    · rfl
    · show (reloadFound disk p _ (StopPlugin _ s)).pluginsLoaded = _
      have h1 : ∀ (pl : Plugin) (s1 : EngineState),
          (reloadFound disk p pl s1).pluginsLoaded = s1.pluginsLoaded := by
        intro pl s1
        unfold reloadFound
        split
        · rfl
        · split <;> rfl
      have h2 : ∀ (pl : Plugin) (s1 : EngineState),
          (StopPlugin pl s1).pluginsLoaded = s1.pluginsLoaded := by
        intro pl s1
        unfold StopPlugin
        split <;> rfl
      rw [h1, h2]
  unfold AutoReloadPlugins
  split
  · exact foldl_pres _ EngineState.pluginsLoaded hone st.changedPluginFiles st
  · rfl

lemma ProcessREPL_evalQueue (f : String → EvalResult) (st : EngineState) :
    (ProcessREPL f st).evalQueue = [] := rfl

lemma ProcessREPL_registerCount (f : String → EvalResult) (st : EngineState) :
    (ProcessREPL f st).registerCount = st.registerCount := rfl

lemma ProcessREPL_pluginsStarted (f : String → EvalResult) (st : EngineState) :
    (ProcessREPL f st).pluginsStarted = st.pluginsStarted := rfl

lemma ProcessREPL_pluginsLoaded (f : String → EvalResult) (st : EngineState) :
    (ProcessREPL f st).pluginsLoaded = st.pluginsLoaded := rfl

lemma updateCore_evalQueue (tick : Nat) (disk : String → FileBehavior)
    (st : EngineState) :
    (updateCore tick disk st).evalQueue = st.evalQueue := by
  have h0 : (initIfNeeded st).evalQueue = st.evalQueue := by
    unfold initIfNeeded
    split <;> rfl
  unfold updateCore
  split_ifs
  · show (AutoReloadPlugins disk (initIfNeeded st)).evalQueue = _
    rw [AutoReload_evalQueue, h0]
  · exact h0
  · rw [StartPlugins_evalQueue, h0]
  · exact h0

lemma updateCore_registerCount_initialised (tick : Nat)
    (disk : String → FileBehavior) {st : EngineState}
    (hi : st.initialised = true) :
    (updateCore tick disk st).registerCount = st.registerCount := by
  have h0 : initIfNeeded st = st := by
    unfold initIfNeeded
    simp [hi]
  unfold updateCore
  rw [h0]
  split_ifs
  · show (AutoReloadPlugins disk st).registerCount = _
    rw [AutoReload_registerCount]
  · rfl
  · rw [StartPlugins_registerCount]
  · rfl

/-! ### REPL queue lemmas -/

lemma replTrace_fulfills (f : String → EvalResult) :
    ∀ (q : List (Nat × String)), ∀ it ∈ q,
      Event.promiseFulfilled it.1 ∈ replTrace f q
  | [], it, h => by simp at h
  | (pid, cmd) :: rest, it, h => by
      rcases List.mem_cons.mp h with rfl | h
      · simp [replTrace]
      · simp only [replTrace, List.append_assoc, List.mem_append]
        exact Or.inr (Or.inr (replTrace_fulfills f rest it h))

/-! ### `loadAttempts` lemmas -/

lemma loadAttempts_append (p : String) (t1 t2 : List Event) :
    loadAttempts p (t1 ++ t2) = loadAttempts p t1 + loadAttempts p t2 := by
  simp [loadAttempts, List.filter_append]

lemma loadAttempts_stopEvents (p : String) (n : Nat) (pl : Plugin) :
    loadAttempts p (stopEvents n pl) = 0 := by
  unfold stopEvents
  cases hs : pl.stopThrows <;>
    simp [loadAttempts, errEvents, isLoadCallFor, List.filter_replicate, hs]

lemma StopPlugin_loadAttempts (p : String) (pl : Plugin) (st : EngineState) :
    loadAttempts p (StopPlugin pl st).trace = loadAttempts p st.trace := by
  rw [StopPlugin_trace]
  split
  · rw [loadAttempts_append, loadAttempts_stopEvents]
    omega
  · simp [loadAttempts]


lemma reloadFound_loadAttempts (disk : String → FileBehavior) (q : String)
    (pl : Plugin) (st1 : EngineState) (p : String) :
    loadAttempts p (reloadFound disk q pl st1).trace =
      loadAttempts p st1.trace + (if q = p then 1 else 0) := by
  unfold reloadFound
  cases hl : (disk q).load with
  | error e =>
      show loadAttempts p (st1.trace ++ _) = _
      rw [loadAttempts_append]
      by_cases hqp : q = p <;>
        simp [loadAttempts, isLoadCallFor, hqp]
  | ok md =>
      cases ht : (disk q).startThrows with
      | some e =>
          show loadAttempts p (st1.trace ++ _) = _
          rw [loadAttempts_append]
          by_cases hqp : q = p <;>
            simp [loadAttempts, isLoadCallFor, logPluginInfoLine, hqp]
      | none =>
          show loadAttempts p (st1.trace ++ _) = _
          rw [loadAttempts_append]
          by_cases hqp : q = p <;>
            simp [loadAttempts, isLoadCallFor, logPluginInfoLine, hqp]

lemma reloadOne_loadAttempts (disk : String → FileBehavior) (q : String)
    (st : EngineState) (p : String) :
    loadAttempts p (reloadOne disk q st).trace =
      loadAttempts p st.trace +
        (if q = p ∧ q ∈ st.plugins.map Plugin.path then 1 else 0) := by
  unfold reloadOne
  cases hf : st.plugins.find? (fun pl => pl.path = q) with
  | none =>
      have hnot : q ∉ st.plugins.map Plugin.path := by
        intro hq
        rcases List.mem_map.mp hq with ⟨pl, hpl, rfl⟩
        have := List.find?_eq_none.mp hf pl hpl
        simp at this
      simp [hnot]
  | some pl =>
      have hmem : pl ∈ st.plugins := List.mem_of_find?_eq_some hf
      have hpath : pl.path = q := by
        have := List.find?_some hf
        simpa using this
      have hin : q ∈ st.plugins.map Plugin.path :=
        hpath ▸ List.mem_map_of_mem Plugin.path hmem
      rw [reloadFound_loadAttempts, StopPlugin_loadAttempts]
      by_cases hqp : q = p
      · have hex : ∃ a ∈ st.plugins, a.path = p := hqp ▸ ⟨pl, hmem, hpath⟩
        simp [hqp, hin, hex]
      · simp [hqp]

/-! ### Further frame lemmas -/

lemma startOne_pluginsLoaded (pl : Plugin) (st : EngineState) :
    (startOne pl st).pluginsLoaded = st.pluginsLoaded := by
  unfold startOne
  split
  · rfl
  · split <;> rfl

lemma startOne_initialised (pl : Plugin) (st : EngineState) :
    (startOne pl st).initialised = st.initialised := by
  unfold startOne
  split
  · rfl
  · split <;> rfl

lemma StartPlugins_pluginsLoaded (st : EngineState) :
    (StartPlugins st).pluginsLoaded = st.pluginsLoaded := by
  show (st.plugins.foldl (fun s pl => startOne pl s) st).pluginsLoaded = _
  exact foldl_pres _ EngineState.pluginsLoaded startOne_pluginsLoaded
    st.plugins st

lemma StartPlugins_initialised (st : EngineState) :
    (StartPlugins st).initialised = st.initialised := by
  show (st.plugins.foldl (fun s pl => startOne pl s) st).initialised = _
  exact foldl_pres _ EngineState.initialised startOne_initialised st.plugins st

lemma StopPlugin_initialised (pl : Plugin) (st : EngineState) :
    (StopPlugin pl st).initialised = st.initialised := by
  unfold StopPlugin
  split <;> rfl

lemma reloadFound_initialised (disk : String → FileBehavior) (p : String)
    (pl : Plugin) (st1 : EngineState) :
    (reloadFound disk p pl st1).initialised = st1.initialised := by
  unfold reloadFound
  split
  · rfl
  · split <;> rfl

lemma reloadOne_initialised (disk : String → FileBehavior) (p : String)
    (st : EngineState) :
    (reloadOne disk p st).initialised = st.initialised := by
  unfold reloadOne
  split
  · rfl
  · rw [reloadFound_initialised, StopPlugin_initialised]

lemma AutoReload_initialised (disk : String → FileBehavior)
    (st : EngineState) :
    (AutoReloadPlugins disk st).initialised = st.initialised := by
  unfold AutoReloadPlugins
  split
  · exact foldl_pres _ EngineState.initialised (reloadOne_initialised disk)
      st.changedPluginFiles st
  · rfl

lemma initIfNeeded_initialised (st : EngineState) :
    (initIfNeeded st).initialised = true := by
  unfold initIfNeeded
  split
  · next h => exact h
  · rfl

lemma initIfNeeded_plugins (st : EngineState) :
    (initIfNeeded st).plugins = st.plugins := by
  unfold initIfNeeded
  split <;> rfl

lemma initIfNeeded_of_initialised {st : EngineState}
    (h : st.initialised = true) : initIfNeeded st = st := by
  unfold initIfNeeded
  simp [h]

lemma LoadPlugin_registerCount (disk : String → FileBehavior) (p : String)
    (st : EngineState) :
    (LoadPlugin disk p st).registerCount = st.registerCount := by
  unfold LoadPlugin
  cases hl : (disk p).load with
  | error e => rfl
  | ok md =>
      by_cases h : md.MinApiVersion ≤ OPENRCT2_PLUGIN_API_VERSION <;> simp [h]

/-! ### `updateCore` branch lemmas -/

lemma updateCore_of_not_initialised {st : EngineState} (tick : Nat)
    (disk : String → FileBehavior) (h : st.initialised = false) :
    updateCore tick disk st = initialise st := by
  have h0 : initIfNeeded st = initialise st := by
    unfold initIfNeeded
    simp [h]
  unfold updateCore
  rw [h0]
  simp [initialise]

lemma updateCore_of_not_loaded {st : EngineState} (tick : Nat)
    (disk : String → FileBehavior) (hi : st.initialised = true)
    (hl : st.pluginsLoaded = false) :
    updateCore tick disk st = st := by
  unfold updateCore
  rw [initIfNeeded_of_initialised hi]
  simp [hl]

lemma updateCore_of_loaded_not_started {st : EngineState} (tick : Nat)
    (disk : String → FileBehavior) (hi : st.initialised = true)
    (hl : st.pluginsLoaded = true) (hs : st.pluginsStarted = false) :
    updateCore tick disk st = StartPlugins st := by
  unfold updateCore
  rw [initIfNeeded_of_initialised hi]
  simp [hl, hs]

lemma updateCore_of_started_elapsed {st : EngineState} (tick : Nat)
    (disk : String → FileBehavior) (hi : st.initialised = true)
    (hl : st.pluginsLoaded = true) (hs : st.pluginsStarted = true)
    (ht : sub32 tick st.lastHotReloadCheckTick > 1000) :
    updateCore tick disk st =
      { AutoReloadPlugins disk st with lastHotReloadCheckTick := tick } := by
  unfold updateCore
  rw [initIfNeeded_of_initialised hi]
  simp [hl, hs, ht]

lemma updateCore_of_started_recent {st : EngineState} (tick : Nat)
    (disk : String → FileBehavior) (hi : st.initialised = true)
    (hl : st.pluginsLoaded = true) (hs : st.pluginsStarted = true)
    (ht : sub32 tick st.lastHotReloadCheckTick ≤ 1000) :
    updateCore tick disk st = st := by
  unfold updateCore
  rw [initIfNeeded_of_initialised hi]
  have : ¬ sub32 tick st.lastHotReloadCheckTick > 1000 := by omega
  simp [hl, hs, this]

lemma updateCore_initialised (tick : Nat) (disk : String → FileBehavior)
    (st : EngineState) : (updateCore tick disk st).initialised = true := by
  unfold updateCore
  split_ifs
  · show (AutoReloadPlugins disk (initIfNeeded st)).initialised = true
    rw [AutoReload_initialised, initIfNeeded_initialised]
  · exact initIfNeeded_initialised st
  · rw [StartPlugins_initialised, initIfNeeded_initialised]
  · exact initIfNeeded_initialised st

lemma Update_initialised (tick : Nat) (disk : String → FileBehavior)
    (evalFn : String → EvalResult) (st : EngineState) :
    (Update tick disk evalFn st).initialised = true := by
  show (updateCore tick disk st).initialised = true
  exact updateCore_initialised tick disk st

/-! ## Claims -/

/-- C2: `StopPlugin(P)` is a no-op if `P` has not started; otherwise it first
removes all of `P`'s hook subscriptions (afterwards zero subscriptions remain
attributed to `P`, while subscriptions of other plugins survive), then
notifies the plugin-stopped observers, then calls `P`'s `Stop`, catching and
reporting an exception from `Stop` without propagating it — the trace records
exactly `UnsubscribeAll`, the observer notifications, the `Stop` call and the
caught error line, in that order. -/
theorem C2_stopPlugin_unsubscribes_then_notifies_then_stops
    (pl : Plugin) (st : EngineState) :
    (pl.hasStarted = false → StopPlugin pl st = st) ∧
    (pl.hasStarted = true →
      (StopPlugin pl st).trace =
        st.trace ++
          (Event.unsubscribeAll pl.id ::
            (List.replicate st.pluginStoppedObservers
                (Event.pluginStoppedNotify pl.id) ++
              (Event.stopCall pl.id pl.path :: errEvents pl.stopThrows))) ∧
      (∀ s ∈ (StopPlugin pl st).subscriptions, s.2 ≠ pl.id) ∧
      (∀ s ∈ st.subscriptions, s.2 ≠ pl.id →
        s ∈ (StopPlugin pl st).subscriptions)) := by
  constructor
  · intro h
    unfold StopPlugin
    simp [h]
  · intro h
    unfold StopPlugin
    simp only [h, if_true]
    refine ⟨rfl, ?_, ?_⟩
    · intro s hs
      have := List.mem_filter.mp hs
      simpa using this.2
    · intro s hs hne
      apply List.mem_filter.mpr
      exact ⟨hs, by simpa using hne⟩

/-- Witness for C2 at a concrete started plugin with an observer pair, a
subscription of its own and one of another plugin. -/
theorem C2_witness :
    plA.hasStarted = true ∧
    ((StopPlugin plA stSub).trace =
        stSub.trace ++
          (Event.unsubscribeAll plA.id ::
            (List.replicate stSub.pluginStoppedObservers
                (Event.pluginStoppedNotify plA.id) ++
              (Event.stopCall plA.id plA.path :: errEvents plA.stopThrows))) ∧
      (∀ s ∈ (StopPlugin plA stSub).subscriptions, s.2 ≠ plA.id) ∧
      (∀ s ∈ stSub.subscriptions, s.2 ≠ plA.id →
        s ∈ (StopPlugin plA stSub).subscriptions)) :=
  ⟨rfl,
   (C2_stopPlugin_unsubscribes_then_notifies_then_stops plA stSub).2 rfl⟩

/-- C3: `StartPlugins` attempts `Start` on every registered plugin not yet
started, in registry order; an exception from one plugin's `Start` is caught
at that plugin's boundary and reported to the console, and the remaining
plugins are still attempted (the trace is exactly the concatenation of every
plugin's per-plugin events); the plugins-started flag is set once all have
been attempted. -/
theorem C3_startPlugins_attempts_all (st : EngineState) :
    (StartPlugins st).pluginsStarted = true ∧
    (StartPlugins st).trace = st.trace ++ st.plugins.flatMap startEvents ∧
    (∀ pl ∈ st.plugins, pl.hasStarted = false →
      Event.startCall pl.id pl.path ∈ (StartPlugins st).trace) ∧
    (∀ pl ∈ st.plugins, ∀ e : String, pl.hasStarted = false →
      pl.startThrows = some e →
      Event.consoleError e ∈ (StartPlugins st).trace) := by
  refine ⟨StartPlugins_pluginsStarted st, StartPlugins_trace st, ?_, ?_⟩
  · intro pl hpl hns
    rw [StartPlugins_trace]
    refine List.mem_append.mpr (Or.inr ?_)
    refine List.mem_flatMap.mpr ⟨pl, hpl, ?_⟩
    simp [startEvents, hns]
  · intro pl hpl e hns ht
    rw [StartPlugins_trace]
    refine List.mem_append.mpr (Or.inr ?_)
    refine List.mem_flatMap.mpr ⟨pl, hpl, ?_⟩
    simp [startEvents, hns, ht, errEvents]

/-- Witness for C3: two loaded plugins, the first of which throws on `Start`;
both receive the `Start` call, the failure is reported, the flag is set. -/
theorem C3_witness :
    ((StartPlugins stStartable).pluginsStarted = true ∧
      Event.startCall plB.id plB.path ∈ (StartPlugins stStartable).trace ∧
      Event.startCall plC.id plC.path ∈ (StartPlugins stStartable).trace ∧
      Event.consoleError "startfail" ∈ (StartPlugins stStartable).trace) :=
  ⟨(C3_startPlugins_attempts_all stStartable).1,
   (C3_startPlugins_attempts_all stStartable).2.2.1 plB (by decide) rfl,
   (C3_startPlugins_attempts_all stStartable).2.2.1 plC (by decide) rfl,
   (C3_startPlugins_attempts_all stStartable).2.2.2 plB (by decide)
     "startfail" rfl rfl⟩

/-- C5: two snippets enqueued via `Eval` enter the FIFO in order with fresh
promise ids, and one `Update` drains them strictly in FIFO order: the trace
appended by the drain is `output of S1, fulfilment of S1's promise, output of
S2, fulfilment of S2's promise` — so S1's console output precedes S2's, and
each completion signal fires only after that snippet's output. -/
theorem C5_repl_fifo_order (st : EngineState) (s1 s2 : String) (tick : Nat)
    (disk : String → FileBehavior) (evalFn : String → EvalResult)
    (hq : st.evalQueue = []) :
    (Eval s2 (Eval s1 st).1).1.evalQueue =
        [(st.nextPromiseId, s1), (st.nextPromiseId + 1, s2)] ∧
    (Eval s1 st).2 = st.nextPromiseId ∧
    (Eval s2 (Eval s1 st).1).2 = st.nextPromiseId + 1 ∧
    (Update tick disk evalFn (Eval s2 (Eval s1 st).1).1).trace =
      (updateCore tick disk (Eval s2 (Eval s1 st).1).1).trace ++
        (replOutput (evalFn s1) ++
          (Event.promiseFulfilled st.nextPromiseId ::
            (replOutput (evalFn s2) ++
              [Event.promiseFulfilled (st.nextPromiseId + 1)]))) := by
  have hq2 : (Eval s2 (Eval s1 st).1).1.evalQueue =
      [(st.nextPromiseId, s1), (st.nextPromiseId + 1, s2)] := by
    simp [Eval, hq]
  refine ⟨hq2, rfl, rfl, ?_⟩
  show (ProcessREPL evalFn (updateCore tick disk _)).trace = _
  unfold ProcessREPL
  rw [updateCore_evalQueue, hq2]
  simp [replTrace]

/-- Witness for C5 at a fresh engine and an echoing evaluator. -/
theorem C5_witness :
    (Eval "2+2" (Eval "1+1" initState).1).1.evalQueue =
        [(0, "1+1"), (1, "2+2")] ∧
    (Eval "1+1" initState).2 = 0 ∧
    (Eval "2+2" (Eval "1+1" initState).1).2 = 1 ∧
    (Update 5 diskOk evalShow (Eval "2+2" (Eval "1+1" initState).1).1).trace =
      (updateCore 5 diskOk (Eval "2+2" (Eval "1+1" initState).1).1).trace ++
        (replOutput (evalShow "1+1") ++
          (Event.promiseFulfilled 0 ::
            (replOutput (evalShow "2+2") ++ [Event.promiseFulfilled 1]))) :=
  C5_repl_fifo_order initState "1+1" "2+2" 5 diskOk evalShow rfl

/-- C6: when the snippet at the head of the queue fails to evaluate, the
error is caught for that snippet only and written as a console error line,
the drain continues with the remaining snippets (the queue ends empty), and
every queued snippet's completion signal still fires — including the failing
one. -/
theorem C6_repl_error_isolated (evalFn : String → EvalResult)
    (st : EngineState) (pid : Nat) (cmd : String)
    (rest : List (Nat × String)) (m : String)
    (hq : st.evalQueue = (pid, cmd) :: rest)
    (he : evalFn cmd = EvalResult.err m) :
    (ProcessREPL evalFn st).trace =
      st.trace ++
        (Event.consoleError m ::
          (Event.promiseFulfilled pid :: replTrace evalFn rest)) ∧
    (ProcessREPL evalFn st).evalQueue = [] ∧
    (∀ it ∈ st.evalQueue,
      Event.promiseFulfilled it.1 ∈ (ProcessREPL evalFn st).trace) := by
  refine ⟨?_, rfl, ?_⟩
  · unfold ProcessREPL
    rw [hq]
    simp [replTrace, replOutput, he]
  · intro it hit
    unfold ProcessREPL
    exact List.mem_append.mpr (Or.inr (replTrace_fulfills evalFn _ it hit))

/-- Witness for C6: a queue holding a failing snippet then a succeeding one;
the error line appears, the queue drains, both promises are fulfilled. -/
theorem C6_witness :
    ((ProcessREPL evalBoom
          { initState with evalQueue := [(0, "bad"), (1, "good")] }).trace =
        initState.trace ++
          (Event.consoleError "boom" ::
            (Event.promiseFulfilled 0 :: replTrace evalBoom [(1, "good")])) ∧
      (ProcessREPL evalBoom
          { initState with evalQueue := [(0, "bad"), (1, "good")] }).evalQueue
        = [] ∧
      (∀ it ∈ ({ initState with
            evalQueue := [(0, "bad"), (1, "good")] } : EngineState).evalQueue,
        Event.promiseFulfilled it.1 ∈
          (ProcessREPL evalBoom
            { initState with evalQueue := [(0, "bad"), (1, "good")] }).trace)) :=
  C6_repl_error_isolated evalBoom
    { initState with evalQueue := [(0, "bad"), (1, "good")] }
    0 "bad" [(1, "good")] "boom" rfl rfl

lemma LoadPlugins_registerCount_initialised (d : Bool) (files : List String)
    (disk : String → FileBehavior) {st : EngineState}
    (hi : st.initialised = true) :
    (LoadPlugins d files disk st).registerCount = st.registerCount := by
  have hf : ∀ (p : String) (s : EngineState),
      (if ShouldLoadScript p then LoadPlugin disk p s else s).registerCount =
        s.registerCount := by
    intro p s
    by_cases hp : ShouldLoadScript p
    · simpa [hp] using LoadPlugin_registerCount disk p s
    · simp [hp]
  cases d with
  | false =>
      show (initIfNeeded st).registerCount = st.registerCount
      rw [initIfNeeded_of_initialised hi]
  | true =>
      show (files.foldl
        (fun s p => if ShouldLoadScript p then LoadPlugin disk p s else s)
        (initIfNeeded st)).registerCount = st.registerCount
      rw [foldl_pres _ EngineState.registerCount hf files (initIfNeeded st),
        initIfNeeded_of_initialised hi]

/-- C4 counterexample: with plugins loaded and started, the last hot-reload
check at tick 0 and the current tick 1000, exactly 1000 time-units have
elapsed ("at least 1000"), yet `Update` does not run `AutoReloadPlugins`: the
pending change is still pending, the timer is not reset, and no reload
attempt for the changed path appears in the trace — the code requires
strictly more than 1000 (`tick - _lastHotReloadCheckTick > 1000`). -/
theorem C4_counterexample :
    sub32 1000 stRunning.lastHotReloadCheckTick ≥ 1000 ∧
    stRunning.pluginsLoaded = true ∧
    stRunning.pluginsStarted = true ∧
    stRunning.changedPluginFiles = ["a.js"] ∧
    (Update 1000 diskOk evalUndef stRunning).changedPluginFiles = ["a.js"] ∧
    (Update 1000 diskOk evalUndef stRunning).lastHotReloadCheckTick = 0 ∧
    loadAttempts "a.js" (Update 1000 diskOk evalUndef stRunning).trace = 0 := by
  decide

/-- C4 (amended): on every call `Update` initialises the engine if needed; if
plugins are loaded but not started it starts them; otherwise, when *more*
than 1000 time-units have elapsed since the last hot-reload check (the code
tests `tick - last > 1000`, so exactly 1000 elapsed does not trigger), it
runs `AutoReloadPlugins` and resets the timer; and every `Update` finishes by
draining the whole REPL queue, whichever branch was taken. -/
theorem C4_update_branches (tick : Nat) (disk : String → FileBehavior)
    (evalFn : String → EvalResult) (st : EngineState) :
    (Update tick disk evalFn st).initialised = true ∧
    Update tick disk evalFn st =
      ProcessREPL evalFn (updateCore tick disk st) ∧
    (Update tick disk evalFn st).evalQueue = [] ∧
    (Update tick disk evalFn st).trace =
      (updateCore tick disk st).trace ++
        replTrace evalFn (updateCore tick disk st).evalQueue ∧
    (st.initialised = false → updateCore tick disk st = initialise st) ∧
    (st.initialised = true → st.pluginsLoaded = false →
      updateCore tick disk st = st) ∧
    (st.initialised = true → st.pluginsLoaded = true →
      st.pluginsStarted = false →
      updateCore tick disk st = StartPlugins st) ∧
    (st.initialised = true → st.pluginsLoaded = true →
      st.pluginsStarted = true →
      sub32 tick st.lastHotReloadCheckTick > 1000 →
      updateCore tick disk st =
        { AutoReloadPlugins disk st with lastHotReloadCheckTick := tick }) ∧
    (st.initialised = true → st.pluginsLoaded = true →
      st.pluginsStarted = true →
      sub32 tick st.lastHotReloadCheckTick ≤ 1000 →
      updateCore tick disk st = st) :=
  ⟨Update_initialised tick disk evalFn st, rfl, rfl, rfl,
   updateCore_of_not_initialised tick disk,
   fun hi hl => updateCore_of_not_loaded tick disk hi hl,
   fun hi hl hs => updateCore_of_loaded_not_started tick disk hi hl hs,
   fun hi hl hs ht => updateCore_of_started_elapsed tick disk hi hl hs ht,
   fun hi hl hs ht => updateCore_of_started_recent tick disk hi hl hs ht⟩

/-- Witness for C4 (amended) at 1001 elapsed time-units: the hot-reload
branch fires. -/
theorem C4_witness :
    stRunning.initialised = true ∧ stRunning.pluginsLoaded = true ∧
    stRunning.pluginsStarted = true ∧
    sub32 1001 stRunning.lastHotReloadCheckTick > 1000 ∧
    updateCore 1001 diskOk stRunning =
      { AutoReloadPlugins diskOk stRunning with
        lastHotReloadCheckTick := 1001 } :=
  ⟨rfl, rfl, rfl, by decide,
   (C4_update_branches 1001 diskOk evalUndef
     stRunning).2.2.2.2.2.2.2.1 rfl rfl rfl (by decide)⟩

/-- C7 counterexample: `Initialise()` itself carries no already-initialised
guard.  Calling it twice on a fresh engine is not the same as calling it
once: the capability globals are registered twice. -/
theorem C7_counterexample :
    initialise (initialise initState) ≠ initialise initState ∧
    (initialise (initialise initState)).registerCount = 2 ∧
    (initialise initState).registerCount = 1 := by
  decide

/-- C7 (amended): the idempotence guard lives at `Initialise`'s call sites,
not inside it.  A second direct `Initialise` re-registers the capability
globals (two registrations) though it leaves the three lifecycle flags
exactly as one call does; through the guarded entry points the globals are
registered exactly once: `Update` and `LoadPlugins` on an already-initialised
engine perform no registration, and `Update` on a fresh engine performs
exactly one. -/
theorem C7_initialise_guard_at_call_sites (st : EngineState) (tick : Nat)
    (disk : String → FileBehavior) (evalFn : String → EvalResult)
    (d : Bool) (files : List String) :
    ((initialise (initialise st)).initialised =
        (initialise st).initialised ∧
      (initialise (initialise st)).pluginsLoaded =
        (initialise st).pluginsLoaded ∧
      (initialise (initialise st)).pluginsStarted =
        (initialise st).pluginsStarted) ∧
    (initialise (initialise st)).registerCount = st.registerCount + 2 ∧
    (st.initialised = true →
      (Update tick disk evalFn st).registerCount = st.registerCount) ∧
    (st.initialised = false →
      (Update tick disk evalFn st).registerCount = st.registerCount + 1) ∧
    (st.initialised = true →
      (LoadPlugins d files disk st).registerCount = st.registerCount) := by
  refine ⟨⟨rfl, rfl, rfl⟩, rfl, ?_, ?_, ?_⟩
  · intro hi
    show (updateCore tick disk st).registerCount = st.registerCount
    exact updateCore_registerCount_initialised tick disk hi
  · intro hi
    show (updateCore tick disk st).registerCount = st.registerCount + 1
    rw [updateCore_of_not_initialised tick disk hi]
    rfl
  · intro hi
    exact LoadPlugins_registerCount_initialised d files disk hi

/-- Witness for C7 (amended) on concrete engines. -/
theorem C7_witness :
    stRunning.initialised = true ∧
    initState.initialised = false ∧
    (Update 7 diskOk evalUndef stRunning).registerCount =
      stRunning.registerCount ∧
    (Update 7 diskOk evalUndef initState).registerCount =
      initState.registerCount + 1 ∧
    (LoadPlugins false [] diskOk stRunning).registerCount =
      stRunning.registerCount :=
  ⟨rfl, rfl,
   (C7_initialise_guard_at_call_sites stRunning 7 diskOk evalUndef false
     []).2.2.1 rfl,
   (C7_initialise_guard_at_call_sites initState 7 diskOk evalUndef false
     []).2.2.2.1 rfl,
   (C7_initialise_guard_at_call_sites stRunning 7 diskOk evalUndef false
     []).2.2.2.2 rfl⟩

lemma foldl_reloadOne_loadAttempts (disk : String → FileBehavior) (p : String) :
    ∀ (l : List String) (st : EngineState), p ∈ st.plugins.map Plugin.path →
      loadAttempts p
          ((l.foldl (fun s q => reloadOne disk q s) st)).trace =
        loadAttempts p st.trace + l.count p
  | [], st, _ => by simp
  | q :: l, st, hp => by
      rw [List.foldl_cons]
      have hp' : p ∈ (reloadOne disk q st).plugins.map Plugin.path := by
        rw [reloadOne_paths]
        exact hp
      rw [foldl_reloadOne_loadAttempts disk p l _ hp', reloadOne_loadAttempts]
      by_cases hqp : q = p
      · subst hqp
        simp [hp, List.count_cons]
        omega
      · simp [hqp, List.count_cons]

/-- C8: re-adding an already-pending path to the hot-reload change set is a
no-op, so two modification notifications before a drain leave exactly one
pending entry; the next `AutoReloadPlugins` then performs exactly one reload
attempt (one `plugin->Load()` invocation) for that path, and the change set
is cleared after the drain. -/
theorem C8_change_set_dedup (st : EngineState) (disk : String → FileBehavior)
    (p : String)
    (hreg : p ∈ st.plugins.map Plugin.path)
    (hnew : p ∉ st.changedPluginFiles) :
    notifyFileChanged p (notifyFileChanged p st) = notifyFileChanged p st ∧
    (notifyFileChanged p
        (notifyFileChanged p st)).changedPluginFiles.count p = 1 ∧
    loadAttempts p
        (AutoReloadPlugins disk
          (notifyFileChanged p (notifyFileChanged p st))).trace =
      loadAttempts p st.trace + 1 ∧
    (AutoReloadPlugins disk
        (notifyFileChanged p (notifyFileChanged p st))).changedPluginFiles
      = [] := by
  have h1 : notifyFileChanged p st =
      { st with changedPluginFiles := st.changedPluginFiles ++ [p] } := by
    unfold notifyFileChanged
    simp [hnew]
  have h2 : notifyFileChanged p (notifyFileChanged p st) =
      notifyFileChanged p st := by
    rw [h1]
    show notifyFileChanged p _ = _
    unfold notifyFileChanged
    simp
  have hcount : (st.changedPluginFiles ++ [p]).count p = 1 := by
    simp [List.count_append, List.count_eq_zero.mpr hnew]
  refine ⟨h2, ?_, ?_, ?_⟩
  · rw [h2, h1]
    exact hcount
  · rw [h2, h1]
    unfold AutoReloadPlugins
    split
    · show loadAttempts p
          ((st.changedPluginFiles ++ [p]).foldl (fun s q => reloadOne disk q s)
            { st with
              changedPluginFiles := st.changedPluginFiles ++ [p] }).trace = _
      have hreg' : p ∈
          ({ st with changedPluginFiles := st.changedPluginFiles ++ [p] } :
            EngineState).plugins.map Plugin.path := hreg
      rw [foldl_reloadOne_loadAttempts disk p _ _ hreg']
      show loadAttempts p st.trace + _ = _
      rw [hcount]
    · next hneg => simp at hneg
  · rw [h2, h1]
    unfold AutoReloadPlugins
    split
    · rfl
    · next hneg => simp at hneg

/-- Witness for C8 on a running engine with one registered plugin. -/
theorem C8_witness :
    "a.js" ∈ stSub.plugins.map Plugin.path ∧
    "a.js" ∉ stSub.changedPluginFiles ∧
    (notifyFileChanged "a.js" (notifyFileChanged "a.js" stSub) =
        notifyFileChanged "a.js" stSub ∧
      (notifyFileChanged "a.js"
          (notifyFileChanged "a.js" stSub)).changedPluginFiles.count "a.js"
        = 1 ∧
      loadAttempts "a.js"
          (AutoReloadPlugins diskOk
            (notifyFileChanged "a.js" (notifyFileChanged "a.js" stSub))).trace
        = loadAttempts "a.js" stSub.trace + 1 ∧
      (AutoReloadPlugins diskOk
          (notifyFileChanged "a.js"
            (notifyFileChanged "a.js" stSub))).changedPluginFiles = []) :=
  ⟨by decide, by decide,
   C8_change_set_dedup stSub diskOk "a.js" (by decide) (by decide)⟩

lemma updateCore_started_flags_of_loaded {st : EngineState} (tick : Nat)
    (disk : String → FileBehavior) (hi : st.initialised = true)
    (hl : st.pluginsLoaded = true) :
    (updateCore tick disk st).pluginsStarted = true ∧
    (updateCore tick disk st).pluginsLoaded = true := by
  by_cases hs : st.pluginsStarted = true
  · by_cases ht : sub32 tick st.lastHotReloadCheckTick > 1000
    · rw [updateCore_of_started_elapsed tick disk hi hl hs ht]
      constructor
      · show (AutoReloadPlugins disk st).pluginsStarted = true
        rw [AutoReload_pluginsStarted]
        exact hs
      · show (AutoReloadPlugins disk st).pluginsLoaded = true
        rw [AutoReload_pluginsLoaded]
        exact hl
    · rw [updateCore_of_started_recent tick disk hi hl hs (by omega)]
      exact ⟨hs, hl⟩
  · have hs' : st.pluginsStarted = false := by
      cases h : st.pluginsStarted
      · rfl
      · exact absurd h hs
    rw [updateCore_of_loaded_not_started tick disk hi hl hs']
    refine ⟨StartPlugins_pluginsStarted st, ?_⟩
    rw [StartPlugins_pluginsLoaded]
    exact hl

/-- C10: `LoadPlugins` with a missing plugin directory still sets the
plugins-loaded flag; the registry stays empty and no error line is produced;
the next `Update` then runs `StartPlugins` over the empty registry and the
engine ends with both the loaded and started flags set, making the periodic
hot-reload check eligible. -/
theorem C10_loadPlugins_missing_dir (st : EngineState) (files : List String)
    (disk : String → FileBehavior) (tick : Nat) (evalFn : String → EvalResult)
    (hpl : st.plugins = []) :
    (LoadPlugins false files disk st).pluginsLoaded = true ∧
    (LoadPlugins false files disk st).plugins = [] ∧
    (∀ m, Event.consoleError m ∈ (LoadPlugins false files disk st).trace →
      Event.consoleError m ∈ st.trace) ∧
    (Update tick disk evalFn
        (LoadPlugins false files disk st)).pluginsStarted = true ∧
    (Update tick disk evalFn
        (LoadPlugins false files disk st)).pluginsLoaded = true := by
  refine ⟨rfl, ?_, ?_, ?_, ?_⟩
  · show (initIfNeeded st).plugins = []
    rw [initIfNeeded_plugins, hpl]
  · intro m hm
    have hm' : Event.consoleError m ∈ (initIfNeeded st).trace := hm
    unfold initIfNeeded at hm'
    split at hm'
    · exact hm'
    · rcases List.mem_append.mp hm' with h | h
      · exact h
      · simp at h
  · show (updateCore tick disk
        (LoadPlugins false files disk st)).pluginsStarted = true
    exact (updateCore_started_flags_of_loaded tick disk
      (show (LoadPlugins false files disk st).initialised = true from
        initIfNeeded_initialised st) rfl).1
  · show (updateCore tick disk
        (LoadPlugins false files disk st)).pluginsLoaded = true
    exact (updateCore_started_flags_of_loaded tick disk
      (show (LoadPlugins false files disk st).initialised = true from
        initIfNeeded_initialised st) rfl).2

/-- Witness for C10 on a fresh engine. -/
theorem C10_witness :
    (LoadPlugins false [] diskOk initState).pluginsLoaded = true ∧
    (LoadPlugins false [] diskOk initState).plugins = [] ∧
    (∀ m, Event.consoleError m ∈ (LoadPlugins false [] diskOk initState).trace →
      Event.consoleError m ∈ initState.trace) ∧
    (Update 3 diskOk evalUndef
        (LoadPlugins false [] diskOk initState)).pluginsStarted = true ∧
    (Update 3 diskOk evalUndef
        (LoadPlugins false [] diskOk initState)).pluginsLoaded = true :=
  C10_loadPlugins_missing_dir initState [] diskOk 3 evalUndef rfl

/-- C9: `AutoReloadPlugins` performs no API-version re-check.  For a
registered plugin whose path is pending, it calls `Load` and then `Start`
without comparing the freshly loaded metadata's `MinApiVersion` against
`OPENRCT2_PLUGIN_API_VERSION`: even when the changed file now declares a
version greater than the host's, the plugin is reloaded, restarted and
remains in the registry carrying the too-new metadata. -/
theorem C9_autoReload_no_version_recheck (disk : String → FileBehavior)
    (pl : Plugin) (st : EngineState) (md : PluginMetadata)
    (hplugins : st.plugins = [pl])
    (hchanged : st.changedPluginFiles = [pl.path])
    (hstarted : pl.hasStarted = true)
    (hload : (disk pl.path).load = Except.ok md)
    (hstartok : (disk pl.path).startThrows = none)
    (hv : OPENRCT2_PLUGIN_API_VERSION < md.MinApiVersion) :
    Event.loadCall pl.id pl.path ∈ (AutoReloadPlugins disk st).trace ∧
    Event.startCall pl.id pl.path ∈ (AutoReloadPlugins disk st).trace ∧
    (AutoReloadPlugins disk st).plugins.map Plugin.metadata = [md] ∧
    (AutoReloadPlugins disk st).plugins.map Plugin.hasStarted = [true] ∧
    (AutoReloadPlugins disk st).plugins.map Plugin.id = [pl.id] := by
  have hfind : st.plugins.find? (fun q => q.path = pl.path) = some pl := by
    rw [hplugins]
    simp
  have hA : (AutoReloadPlugins disk st).trace =
        (reloadOne disk pl.path st).trace ∧
      (AutoReloadPlugins disk st).plugins =
        (reloadOne disk pl.path st).plugins := by
    unfold AutoReloadPlugins
    rw [hchanged]
    split
    · exact ⟨rfl, rfl⟩
    · next hneg => simp at hneg
  have hro : reloadOne disk pl.path st =
      reloadFound disk pl.path pl (StopPlugin pl st) := by
    unfold reloadOne
    rw [hfind]
  have hstop : StopPlugin pl st =
      { st with
        subscriptions := unsubscribeAll pl.id st.subscriptions
        plugins := st.plugins.map (setStartedIf pl.id false)
        trace := st.trace ++ stopEvents st.pluginStoppedObservers pl } := by
    unfold StopPlugin
    simp [hstarted]
  have hrf : reloadFound disk pl.path pl (StopPlugin pl st) =
      { StopPlugin pl st with
        plugins := ((StopPlugin pl st).plugins.map
            (reloadUpdate pl.id md none (disk pl.path).stopThrows)).map
          (setStartedIf pl.id true)
        trace := (StopPlugin pl st).trace ++
          [Event.loadCall pl.id pl.path,
           logPluginInfoLine md.Name "Reloaded",
           Event.startCall pl.id pl.path] } := by
    unfold reloadFound
    rw [hload, hstartok]
  refine ⟨?_, ?_, ?_, ?_, ?_⟩
  · rw [hA.1, hro, hrf]
    simp
  · rw [hA.1, hro, hrf]
    simp
  · rw [hA.2, hro, hrf, hstop, hplugins]
    simp [setStartedIf, reloadUpdate]
  · rw [hA.2, hro, hrf, hstop, hplugins]
    simp [setStartedIf, reloadUpdate]
  · rw [hA.2, hro, hrf, hstop, hplugins]
    simp [setStartedIf, reloadUpdate]

/-- Witness for C9: the running engine's file now declares MinApiVersion 999
on disk; after the drain the plugin is restarted and still registered. -/
theorem C9_witness :
    Event.loadCall plA.id plA.path ∈
        (AutoReloadPlugins diskNew stRunning).trace ∧
    Event.startCall plA.id plA.path ∈
        (AutoReloadPlugins diskNew stRunning).trace ∧
    (AutoReloadPlugins diskNew stRunning).plugins.map Plugin.metadata
        = [mdNew] ∧
    (AutoReloadPlugins diskNew stRunning).plugins.map Plugin.hasStarted
        = [true] ∧
    (AutoReloadPlugins diskNew stRunning).plugins.map Plugin.id = [plA.id] :=
  C9_autoReload_no_version_recheck diskNew plA stRunning mdNew
    rfl rfl rfl rfl rfl (by decide)

/-- C1: `LoadPlugin` accepts a plugin whose `Load` registered metadata `md`
into the registry iff `md.MinApiVersion ≤ OPENRCT2_PLUGIN_API_VERSION`.  A
plugin exceeding the host version is absent from the registry (the registry
is unchanged), only the rejection line is logged after the `Load` call, and
under every subsequent sequence of engine operations the rejected plugin
object stays outside the registry, owns no hook subscription, and never
receives a `Start`, `Stop` or hook-callback delivery — it never transitions
past the state its discarded object was left in. -/
theorem C1_loadPlugin_api_version_gate (disk : String → FileBehavior)
    (path : String) (st : EngineState) (md : PluginMetadata)
    (hload : (disk path).load = Except.ok md)
    (hids : ∀ pl ∈ st.plugins, pl.id < st.nextPluginId)
    (hsubs : ∀ s ∈ st.subscriptions, s.2 ≠ st.nextPluginId)
    (htr : ∀ e ∈ st.trace, callsInto st.nextPluginId e = false) :
    ((∃ q ∈ (LoadPlugin disk path st).plugins, q.id = st.nextPluginId) ↔
      md.MinApiVersion ≤ OPENRCT2_PLUGIN_API_VERSION) ∧
    (OPENRCT2_PLUGIN_API_VERSION < md.MinApiVersion →
      (LoadPlugin disk path st).plugins = st.plugins ∧
      (LoadPlugin disk path st).trace =
        st.trace ++
          [Event.loadCall st.nextPluginId path,
           logPluginInfoLine md.Name
             ("Requires newer API version: v" ++ toString md.MinApiVersion)] ∧
      ∀ ops : List Op,
        neverTouched st.nextPluginId (run ops (LoadPlugin disk path st))) := by
  by_cases hv : md.MinApiVersion ≤ OPENRCT2_PLUGIN_API_VERSION
  · have heq : LoadPlugin disk path st =
        { st with
          nextPluginId := st.nextPluginId + 1
          plugins := st.plugins ++
            [{ id := st.nextPluginId, path := path, metadata := md
               startThrows := (disk path).startThrows
               stopThrows := (disk path).stopThrows
               hasStarted := false }]
          trace := st.trace ++
            [Event.loadCall st.nextPluginId path,
             logPluginInfoLine md.Name "Loaded"] } := by
      unfold LoadPlugin
      rw [hload]
      simp [hv]
    constructor
    · constructor
      · intro _
        exact hv
      · intro _
        refine ⟨{ id := st.nextPluginId, path := path, metadata := md
                  startThrows := (disk path).startThrows
                  stopThrows := (disk path).stopThrows
                  hasStarted := false }, ?_, rfl⟩
        rw [heq]
        exact List.mem_append.mpr (Or.inr (List.mem_singleton.mpr rfl))
    · intro h
      exact absurd hv (by omega)
  · have hto : LoadPlugin disk path st =
        { st with
          nextPluginId := st.nextPluginId + 1
          trace := st.trace ++
            [Event.loadCall st.nextPluginId path,
             logPluginInfoLine md.Name
               ("Requires newer API version: v" ++
                 toString md.MinApiVersion)] } := by
      unfold LoadPlugin
      rw [hload]
      simp [hv]
    refine ⟨?_, ?_⟩
    · constructor
      · rintro ⟨q, hq, hqid⟩
        rw [hto] at hq
        have := hids q hq
        omega
      · intro hle
        exact absurd hle hv
    · intro _
      refine ⟨by rw [hto], by rw [hto], ?_⟩
      intro ops
      apply neverTouched_run
      rw [hto]
      refine ⟨?_, ?_, hsubs, ?_⟩
      · show st.nextPluginId < st.nextPluginId + 1
        omega
      · intro hmem
        rcases List.mem_map.mp hmem with ⟨q, hq, hqid⟩
        have := hids q hq
        omega
      · intro e he
        rcases List.mem_append.mp he with he | he
        · exact htr e he
        · simp only [List.mem_cons, List.mem_singleton, List.not_mem_nil,
            or_false] at he
          rcases he with rfl | rfl
          · rfl
          · rfl

/-- Witness for C1: loading a file that declares MinApiVersion 999 on a
fresh engine; the plugin is rejected and stays untouched under a sample run
of further operations. -/
theorem C1_witness :
    ((∃ q ∈ (LoadPlugin diskNew "b.js" initState).plugins,
        q.id = initState.nextPluginId) ↔
      mdNew.MinApiVersion ≤ OPENRCT2_PLUGIN_API_VERSION) ∧
    (OPENRCT2_PLUGIN_API_VERSION < mdNew.MinApiVersion →
      (LoadPlugin diskNew "b.js" initState).plugins = initState.plugins ∧
      (LoadPlugin diskNew "b.js" initState).trace =
        initState.trace ++
          [Event.loadCall initState.nextPluginId "b.js",
           logPluginInfoLine mdNew.Name
             ("Requires newer API version: v" ++
               toString mdNew.MinApiVersion)] ∧
      ∀ ops : List Op,
        neverTouched initState.nextPluginId
          (run ops (LoadPlugin diskNew "b.js" initState))) :=
  C1_loadPlugin_api_version_gate diskNew "b.js" initState mdNew rfl
    (by intro pl h; simp [initState] at h)
    (by intro s h; simp [initState] at h)
    (by intro e h; simp [initState] at h)

end RCT2Script
